import Mathlib

/-!
Verification development for the admission-control core of the digital-twin
backend: the sliding-window + cooldown rate limiter implemented in
`backend/app/core/rate_limiter.py`.

Modelling choices (shallow embedding):
* Wall-clock timestamps, window widths and cooldown spans are Python floats;
  they are embedded as exact rationals `ℚ`.
* `RateLimiter.requests` is a `defaultdict(list)`; reads of a missing key
  yield `[]`, so the dictionary is embedded as a total function
  `String → List ℚ` where the empty list stands for an absent key.
  `RateLimiter.last_request` is a plain dict, embedded as
  `String → Option ℚ` with `none` for an absent key.  The only place where
  key presence is otherwise observable is `cleanup_old_entries`, which
  deletes a `last_request` key exactly when the corresponding timestamp
  list prunes to empty; the embedding mirrors that condition directly.
* Python's `min` raises `ValueError` on an empty sequence; accordingly
  `check_rate_limit` returns `Option`, with `none` for the raised
  exception.
* Python's `int(x)` truncates toward zero (`pyInt`), and the `:.1f`
  format specifier rounds to one decimal digit with ties to even
  (`fmtFixed1`, stated for the nonnegative values that occur here).
-/

namespace DigitalTwin

/-- Point update of a string-keyed map, mirroring a Python dict assignment. -/
def updateMap {α : Type} (f : String → α) (k : String) (v : α) : String → α :=
  fun x => if x = k then v else f x

/-- The in-memory state of `RateLimiter`: per-identifier admitted-request
timestamps (`self.requests`, a `defaultdict(list)`) and the timestamp of the
most recent admitted request (`self.last_request`). -/
structure RateLimiter where
  requests : String → List ℚ
  last_request : String → Option ℚ

/-- The freshly constructed limiter (`RateLimiter.__init__`): both dicts empty. -/
def RateLimiter.init : RateLimiter :=
  ⟨fun _ => [], fun _ => none⟩

/-- Python `int(x)` applied to a float: truncation toward zero. -/
def pyInt (q : ℚ) : ℤ :=
  if 0 ≤ q then ⌊q⌋ else -⌊-q⌋

/-- Round `q` to the nearest integer, ties to even, as Python's decimal
formatting does. -/
def roundHalfEven (q : ℚ) : ℤ :=
  let f : ℤ := ⌊q⌋
  let r : ℚ := q - f
  if r < 1 / 2 then f
  else if 1 / 2 < r then f + 1
  else if f % 2 = 0 then f else f + 1

/-- Python's `f"{q:.1f}"` on a nonnegative value: one decimal digit,
rounded half to even. -/
def fmtFixed1 (q : ℚ) : String :=
  let n : ℤ := roundHalfEven (q * 10)
  toString (n / 10) ++ "." ++ toString (n % 10)

/-- The list comprehension `[ts for ts in tss if ts > cutoff]` used both by
`check_rate_limit` and `cleanup_old_entries`. -/
def prune (tss : List ℚ) (cutoff : ℚ) : List ℚ :=
  tss.filter fun ts => cutoff < ts

/-- Python `min` over a list, `none` on the empty list (where Python raises
`ValueError`). -/
def listMin : List ℚ → Option ℚ
  | [] => none
  | x :: xs =>
    match listMin xs with
    | none => some x
    | some m => some (min x m)

/-- `RateLimiter.check_rate_limit(identifier, max_requests, window_seconds,
cooldown_seconds)` at wall-clock time `current_time`, returning the
`(allowed, error_message)` pair together with the updated limiter state.
`none` models the `ValueError` raised by `min` on an empty list (the state
at the moment of the raise is not modelled). -/
def check_rate_limit (rl : RateLimiter) (identifier : String) (max_requests : ℤ)
    (window_seconds cooldown_seconds current_time : ℚ) :
    Option ((Bool × String) × RateLimiter) :=
  let cooldown_remaining : Option ℚ :=
    match rl.last_request identifier with
    | some last =>
      if current_time - last < cooldown_seconds then
        some (cooldown_seconds - (current_time - last))
      else none
    | none => none
  match cooldown_remaining with
  | some remaining =>
    some ((false, "Please wait " ++ fmtFixed1 remaining ++
      " seconds before sending another message."), rl)
  | none =>
    let cutoff_time := current_time - window_seconds
    let pruned := prune (rl.requests identifier) cutoff_time
    if max_requests ≤ (pruned.length : ℤ) then
      match listMin pruned with
      | some oldest_request =>
        let retry_after := pyInt (oldest_request + window_seconds - current_time) + 1
        some ((false, "Rate limit exceeded. Please try again in " ++
          toString retry_after ++ " seconds."),
          ⟨updateMap rl.requests identifier pruned, rl.last_request⟩)
      | none => none
    else
      some ((true, ""),
        ⟨updateMap rl.requests identifier (pruned ++ [current_time]),
         updateMap rl.last_request identifier (some current_time)⟩)

/-- `RateLimiter.cleanup_old_entries(max_age_seconds)` at wall-clock time
`current_time`: re-prunes every identifier's timestamp list with the
`max_age_seconds` horizon and drops the tracking state (list and
`last_request` entry) of every identifier whose list prunes to empty. -/
def cleanup_old_entries (rl : RateLimiter) (max_age_seconds current_time : ℚ) :
    RateLimiter :=
  let cutoff_time := current_time - max_age_seconds
  ⟨fun id => prune (rl.requests id) cutoff_time,
   fun id => if prune (rl.requests id) cutoff_time = [] then none
             else rl.last_request id⟩

/-- `MAX_MESSAGE_LENGTH` from `validate_message_content`. -/
def MAX_MESSAGE_LENGTH : ℕ := 2000

/-- Python's `str.isspace()` / `str.strip()` whitespace set: U+0009 to
U+000D, U+001C to U+001F, space, U+0085, U+00A0, U+1680, U+2000 to U+200A,
U+2028, U+2029, U+202F, U+205F and U+3000 (the characters of Unicode
bidirectional class WS, B or S or of category Z). -/
def isPySpace (c : Char) : Bool :=
  (0x09 ≤ c.toNat && c.toNat ≤ 0x0D) ||
  (0x1C ≤ c.toNat && c.toNat ≤ 0x1F) ||
  c.toNat = 0x20 || c.toNat = 0x85 || c.toNat = 0xA0 ||
  c.toNat = 0x1680 ||
  (0x2000 ≤ c.toNat && c.toNat ≤ 0x200A) ||
  c.toNat = 0x2028 || c.toNat = 0x2029 || c.toNat = 0x202F ||
  c.toNat = 0x205F || c.toNat = 0x3000

/-- Python's `str.strip()` on the character list of a string. -/
def pyStrip (l : List Char) : List Char :=
  ((l.dropWhile isPySpace).reverse.dropWhile isPySpace).reverse

/-- Python's `str.lower()` (ASCII case folding). -/
def pyLower (l : List Char) : List Char :=
  l.map Char.toLower

/-- The fixed denylist `suspicious_patterns`. -/
def suspicious_patterns : List (List Char) :=
  ["ignore previous instructions".data,
   "ignore all previous".data,
   "disregard previous".data,
   "forget everything".data,
   "new instructions".data,
   "system: ".data,
   "system:".data,
   "<script".data,
   "javascript:".data,
   "eval(".data,
   "exec(".data]

/-- `pat` is a leading segment of `s` (character-by-character). -/
def leadsChars : List Char → List Char → Bool
  | [], _ => true
  | _ :: _, [] => false
  | a :: as, b :: bs => a = b && leadsChars as bs

/-- Python's `pat in s` substring test on character lists. -/
def containsSub (pat : List Char) : List Char → Bool
  | [] => leadsChars pat []
  | b :: bs => leadsChars pat (b :: bs) || containsSub pat bs

/-- `validate_message_content(message)` from the source: the ordered
chain of content gates, first failure winning. -/
def validate_message_content (message : String) : Bool × String :=
  let chars := message.data
  if chars.isEmpty || (pyStrip chars).isEmpty then
    (false, "Message cannot be empty.")
  else if (pyStrip chars).length < 2 then
    (false, "Message is too short. Please provide a meaningful message.")
  else if MAX_MESSAGE_LENGTH < chars.length then
    (false, "Message is too long. Maximum length is " ++
      toString MAX_MESSAGE_LENGTH ++ " characters.")
  else if suspicious_patterns.any (fun pat => containsSub pat (pyLower chars)) then
    (false, "Your message contains content that cannot be processed. Please rephrase.")
  else
    (true, "")

/-- The per-identifier record invariant stated by the spec: every stored
timestamp is at most the recorded last-request timestamp, and a non-empty
timestamp list ends exactly in that timestamp. -/
def recordInv (tss : List ℚ) (last : Option ℚ) : Prop :=
  (∀ ts ∈ tss, ∃ l, last = some l ∧ ts ≤ l) ∧ (tss ≠ [] → tss.getLast? = last)

/-- The limiter-wide invariant: every identifier's record satisfies
`recordInv`. -/
def rlInv (rl : RateLimiter) : Prop :=
  ∀ id, recordInv (rl.requests id) (rl.last_request id)

/-- Concrete limiter state used to instantiate the window-denial theorem. -/
def rlC1 : RateLimiter :=
  ⟨fun id => if id = "a" then [50, 55] else [],
   fun id => if id = "a" then some 55 else none⟩

/-- Concrete limiter state used to instantiate the cooldown-denial theorem. -/
def rlC2 : RateLimiter :=
  ⟨fun id => if id = "a" then [99] else [],
   fun id => if id = "a" then some 99 else none⟩

/-- Concrete limiter state with a stale timestamp (0) that a window denial
prunes away. -/
def rlC3 : RateLimiter :=
  ⟨fun id => if id = "a" then [0, 55, 56] else [],
   fun id => if id = "a" then some 56 else none⟩

/-- Concrete limiter state whose stored timestamps have all left the window. -/
def rlC5 : RateLimiter :=
  ⟨fun id => if id = "a" then [0, 10] else [],
   fun id => if id = "a" then some 10 else none⟩

/-- Concrete limiter state with one timestamp (100) newer than the cleanup
horizon used in the counterexample. -/
def rlC6 : RateLimiter :=
  ⟨fun id => if id = "a" then [0, 100] else [],
   fun id => if id = "a" then some 100 else none⟩

/-- Concrete limiter state with one fully-stale identifier ("a") and one
identifier with a recent timestamp ("b"). -/
def rlC6w : RateLimiter :=
  ⟨fun id => if id = "a" then [0, 10] else if id = "b" then [0, 100] else [],
   fun id => if id = "a" then some 10 else if id = "b" then some 100 else none⟩

/-- Concrete limiter state holding records for two identifiers. -/
def rlC7 : RateLimiter :=
  ⟨fun id => if id = "a" then [50] else if id = "b" then [1] else [],
   fun id => if id = "a" then some 50 else if id = "b" then some 1 else none⟩

/-- A limiter agreeing with `rlC7` on identifier "a" but differing on "b". -/
def rlC7b : RateLimiter :=
  ⟨fun id => if id = "a" then [50] else if id = "b" then [7] else [],
   fun id => if id = "a" then some 50 else if id = "b" then some 7 else none⟩

/-- Concrete limiter state satisfying the record invariant. -/
def rlC9 : RateLimiter :=
  ⟨fun id => if id = "a" then [1, 2] else [],
   fun id => if id = "a" then some 2 else none⟩

theorem mem_prune {ts cutoff : ℚ} {tss : List ℚ} :
    ts ∈ prune tss cutoff ↔ ts ∈ tss ∧ cutoff < ts := by
  simp [prune]

theorem prune_eq_nil_iff {cutoff : ℚ} {tss : List ℚ} :
    prune tss cutoff = [] ↔ ∀ ts ∈ tss, ts ≤ cutoff := by
  simp [prune, List.filter_eq_nil_iff]

theorem prune_nil (cutoff : ℚ) : prune [] cutoff = [] := rfl

theorem listMin_mem : ∀ {l : List ℚ} {m : ℚ}, listMin l = some m → m ∈ l := by
  intro l
  induction l with
  | nil => intro m h; simp [listMin] at h
  | cons x xs ih =>
    intro m h
    simp only [listMin] at h
    cases hx : listMin xs with
    | none =>
      rw [hx] at h
      simp only [Option.some.injEq] at h
      simp [← h]
    | some m2 =>
      rw [hx] at h
      simp only [Option.some.injEq] at h
      rcases le_total x m2 with h1 | h1
      · rw [← h, min_eq_left h1]; simp
      · rw [← h, min_eq_right h1]
        exact List.mem_cons_of_mem x (ih hx)

theorem listMin_isSome {l : List ℚ} (h : l ≠ []) : ∃ m, listMin l = some m := by
  cases l with
  | nil => exact absurd rfl h
  | cons x xs =>
    simp only [listMin]
    cases listMin xs with
    | none => exact ⟨x, rfl⟩
    | some m2 => exact ⟨min x m2, rfl⟩

theorem pyInt_eq_floor {q : ℚ} (h : 0 ≤ q) : pyInt q = ⌊q⌋ := by
  simp [pyInt, h]

/-- C1: when the cooldown gate passes and the pruned timestamp list (the
entries with timestamp > now - windowSeconds) has length at least
maxRequests, `check_rate_limit` denies; the denial message is exactly
"Rate limit exceeded. Please try again in {retry_after} seconds." with
retry_after equal to the floor of (oldest retained timestamp +
windowSeconds - now) plus one, and with windowSeconds positive this
retry_after is at least 1. -/
theorem c1_window_denial (rl : RateLimiter) (identifier : String)
    (max_requests : ℤ) (w c now : ℚ)
    (hmax : 1 ≤ max_requests) (hw : 0 < w)
    (hcool : ∀ l, rl.last_request identifier = some l → ¬(now - l < c))
    (hlen : max_requests ≤ ((prune (rl.requests identifier) (now - w)).length : ℤ)) :
    ∃ oldest, listMin (prune (rl.requests identifier) (now - w)) = some oldest ∧
      check_rate_limit rl identifier max_requests w c now =
        some ((false, "Rate limit exceeded. Please try again in " ++
            toString (⌊oldest + w - now⌋ + 1) ++ " seconds."),
          ⟨updateMap rl.requests identifier (prune (rl.requests identifier) (now - w)),
           rl.last_request⟩) ∧
      1 ≤ ⌊oldest + w - now⌋ + 1 := by
  have hne : prune (rl.requests identifier) (now - w) ≠ [] := by
    intro h0
    rw [h0] at hlen
    simp only [List.length_nil, Nat.cast_zero] at hlen
    omega
  obtain ⟨oldest, hmin⟩ := listMin_isSome hne
  have hmem := listMin_mem hmin
  have hgt : now - w < oldest := (mem_prune.mp hmem).2
  have hpos : (0 : ℚ) ≤ oldest + w - now := by linarith
  refine ⟨oldest, hmin, ?_, ?_⟩
  · simp only [check_rate_limit]
    cases hl : rl.last_request identifier with
    | none =>
      dsimp only
      rw [if_pos hlen, hmin]
      dsimp only
      rw [pyInt_eq_floor hpos]
    | some last =>
      dsimp only
      rw [if_neg (hcool last hl)]
      dsimp only
      rw [if_pos hlen, hmin]
      dsimp only
      rw [pyInt_eq_floor hpos]
  · have : (0 : ℤ) ≤ ⌊oldest + w - now⌋ := Int.floor_nonneg.mpr hpos
    omega

/-- C2: with a prior admitted request at time `l` and now - l strictly below
cooldownSeconds, `check_rate_limit` denies with the message "Please wait
{remaining:.1f} seconds before sending another message." where remaining =
cooldownSeconds - (now - l), and returns the limiter state completely
unchanged (no window slot consumed, lastRequestTimestamp untouched). -/
theorem c2_cooldown_denial (rl : RateLimiter) (identifier : String)
    (max_requests : ℤ) (w c now l : ℚ)
    (hl : rl.last_request identifier = some l)
    (hc : now - l < c) :
    check_rate_limit rl identifier max_requests w c now =
      some ((false, "Please wait " ++ fmtFixed1 (c - (now - l)) ++
        " seconds before sending another message."), rl) := by
  simp only [check_rate_limit]
  rw [hl]
  dsimp only
  rw [if_pos hc]

/-- C4: for an identifier with no prior history, with maxRequests at least 1,
windowSeconds positive and cooldownSeconds nonnegative, the first call is
allowed with an empty message, appends now to the identifier's timestamp
list and sets its lastRequestTimestamp to now. -/
theorem c4_first_call_allowed (rl : RateLimiter) (identifier : String)
    (max_requests : ℤ) (w c now : ℚ)
    (hreq : rl.requests identifier = [])
    (hlast : rl.last_request identifier = none)
    (hmax : 1 ≤ max_requests) (hw : 0 < w) (hc : 0 ≤ c) :
    check_rate_limit rl identifier max_requests w c now =
      some ((true, ""),
        ⟨updateMap rl.requests identifier [now],
         updateMap rl.last_request identifier (some now)⟩) := by
  simp only [check_rate_limit]
  rw [hlast]
  dsimp only
  rw [hreq, prune_nil]
  rw [if_neg (by simp; omega)]
  simp

/-- C5: the window is sliding, not a fixed reset: whenever every stored
timestamp of the identifier is at most now - windowSeconds and the cooldown
gate passes, `check_rate_limit` returns allowed (with maxRequests at least
1), regardless of any earlier window denial recorded in the state. -/
theorem c5_sliding_window_recovery (rl : RateLimiter) (identifier : String)
    (max_requests : ℤ) (w c now : ℚ)
    (hmax : 1 ≤ max_requests)
    (hold : ∀ ts ∈ rl.requests identifier, ts ≤ now - w)
    (hcool : ∀ l, rl.last_request identifier = some l → c ≤ now - l) :
    check_rate_limit rl identifier max_requests w c now =
      some ((true, ""),
        ⟨updateMap rl.requests identifier [now],
         updateMap rl.last_request identifier (some now)⟩) := by
  have hprune : prune (rl.requests identifier) (now - w) = [] :=
    prune_eq_nil_iff.mpr hold
  simp only [check_rate_limit]
  cases hl : rl.last_request identifier with
  | none =>
    dsimp only
    rw [hprune, if_neg (by simp; omega)]
    simp
  | some last =>
    dsimp only
    rw [if_neg (by have := hcool last hl; linarith)]
    dsimp only
    rw [hprune, if_neg (by simp; omega)]
    simp

/-- Witness for C1: on `rlC1` (timestamps 50 and 55 for "a") the call at
time 60 with a window of 60 and a cap of 2 is denied with retry_after 51. -/
theorem c1_window_denial_witness :
    check_rate_limit rlC1 "a" 2 60 2 60 =
      some ((false, "Rate limit exceeded. Please try again in 51 seconds."),
        ⟨updateMap rlC1.requests "a" [50, 55], rlC1.last_request⟩) ∧
    (1 : ℤ) ≤ ⌊(50 : ℚ) + 60 - 60⌋ + 1 := by
  obtain ⟨oldest, hmin, heq, hpos⟩ :=
    c1_window_denial rlC1 "a" 2 60 2 60 (by norm_num) (by norm_num)
      (by intro l hl; simp [rlC1] at hl; subst hl; norm_num)
      (by norm_num [rlC1, prune, List.filter])
  have h50 : listMin (prune (rlC1.requests "a") (60 - 60)) = some 50 := by
    norm_num [rlC1, prune, listMin, min_def, List.filter]
  rw [h50] at hmin
  have ho : oldest = 50 := (Option.some_inj.mp hmin).symm
  subst ho
  refine ⟨?_, hpos⟩
  rw [heq]
  norm_num [rlC1, prune, List.filter]
  rfl

/-- Witness for C2: on `rlC2` (last admitted request at 99 for "a") the call
at time 100 with a 2-second cooldown is denied with the rendered remaining
wait of 1.0 seconds and an unchanged state. -/
theorem c2_cooldown_denial_witness :
    check_rate_limit rlC2 "a" 10 60 2 100 =
      some ((false, "Please wait 1.0 seconds before sending another message."), rlC2) :=
  Eq.trans (c2_cooldown_denial rlC2 "a" 10 60 2 100 99 rfl (by norm_num))
    (by norm_num [fmtFixed1, roundHalfEven]; rfl)

/-- Witness for C4: the very first call for identifier "b" on a fresh
limiter is allowed and records timestamp 5. -/
theorem c4_first_call_witness :
    check_rate_limit RateLimiter.init "b" 10 60 2 5 =
      some ((true, ""),
        ⟨updateMap RateLimiter.init.requests "b" [5],
         updateMap RateLimiter.init.last_request "b" (some 5)⟩) :=
  c4_first_call_allowed RateLimiter.init "b" 10 60 2 5 rfl rfl
    (by norm_num) (by norm_num) (by norm_num)

/-- Witness for C5: on `rlC5` (timestamps 0 and 10, last request at 10) the
call at time 80 with a 60-second window is allowed again. -/
theorem c5_sliding_window_witness :
    check_rate_limit rlC5 "a" 2 60 2 80 =
      some ((true, ""),
        ⟨updateMap rlC5.requests "a" [80],
         updateMap rlC5.last_request "a" (some 80)⟩) :=
  c5_sliding_window_recovery rlC5 "a" 2 60 2 80 (by norm_num)
    (by intro ts hts; simp [rlC5] at hts; rcases hts with rfl | rfl <;> norm_num)
    (by intro l hl; simp [rlC5] at hl; subst hl; norm_num)

/-- Exhaustive shape analysis of a `check_rate_limit` call that returns
(one of the exactly three `some` outcomes): cooldown denial with unchanged
state, window denial with the identifier's list pruned, or admission with
the timestamp appended and `last_request` updated. -/
theorem check_rate_limit_cases (rl : RateLimiter) (identifier : String)
    (max_requests : ℤ) (w c now : ℚ) :
    ∀ r rl2, check_rate_limit rl identifier max_requests w c now = some (r, rl2) →
      (rl2 = rl ∧ r.1 = false) ∨
      (rl2 = ⟨updateMap rl.requests identifier
          (prune (rl.requests identifier) (now - w)), rl.last_request⟩ ∧ r.1 = false) ∨
      (rl2 = ⟨updateMap rl.requests identifier
          (prune (rl.requests identifier) (now - w) ++ [now]),
        updateMap rl.last_request identifier (some now)⟩ ∧ r.1 = true) := by
  intro r rl2 h
  simp only [check_rate_limit] at h
  have hwin :
      (if max_requests ≤ ((prune (rl.requests identifier) (now - w)).length : ℤ) then
        match listMin (prune (rl.requests identifier) (now - w)) with
        | some oldest_request =>
          some ((false, "Rate limit exceeded. Please try again in " ++
            toString (pyInt (oldest_request + w - now) + 1) ++ " seconds."),
            (⟨updateMap rl.requests identifier
                (prune (rl.requests identifier) (now - w)), rl.last_request⟩ : RateLimiter))
        | none => none
      else
        some ((true, ""),
          (⟨updateMap rl.requests identifier
              (prune (rl.requests identifier) (now - w) ++ [now]),
            updateMap rl.last_request identifier (some now)⟩ : RateLimiter)))
        = some (r, rl2) →
      (rl2 = rl ∧ r.1 = false) ∨
      (rl2 = ⟨updateMap rl.requests identifier
          (prune (rl.requests identifier) (now - w)), rl.last_request⟩ ∧ r.1 = false) ∨
      (rl2 = ⟨updateMap rl.requests identifier
          (prune (rl.requests identifier) (now - w) ++ [now]),
        updateMap rl.last_request identifier (some now)⟩ ∧ r.1 = true) := by
    intro hw
    by_cases hlen : max_requests ≤ ((prune (rl.requests identifier) (now - w)).length : ℤ)
    · rw [if_pos hlen] at hw
      cases hm : listMin (prune (rl.requests identifier) (now - w)) with
      | none => rw [hm] at hw; exact absurd hw (by simp)
      | some oldest =>
        rw [hm] at hw
        simp only [Option.some.injEq, Prod.mk.injEq] at hw
        refine Or.inr (Or.inl ⟨hw.2.symm, ?_⟩)
        rw [← hw.1]
    · rw [if_neg hlen] at hw
      simp only [Option.some.injEq, Prod.mk.injEq] at hw
      refine Or.inr (Or.inr ⟨hw.2.symm, ?_⟩)
      rw [← hw.1]
  cases hl : rl.last_request identifier with
  | none =>
    rw [hl] at h
    dsimp only at h
    exact hwin h
  | some last =>
    rw [hl] at h
    dsimp only at h
    by_cases hcd : now - last < c
    · rw [if_pos hcd] at h
      simp only [Option.some.injEq, Prod.mk.injEq] at h
      refine Or.inl ⟨h.2.symm, ?_⟩
      rw [← h.1]
    · rw [if_neg hcd] at h
      exact hwin h

/-- C3 counterexample: with stored timestamps 0, 55, 56 for "a" and last
request at 56, the call at time 60 (window 60, cap 2, cooldown 2) is denied
by the window gate, yet the stored timestamp list for "a" changes from
[0, 55, 56] to [55, 56]: a denial that mutates the per-identifier state. -/
theorem c3_counterexample :
    Option.map (fun r => (r.1.1, r.2.requests "a"))
      (check_rate_limit rlC3 "a" 2 60 2 60) = some (false, [55, 56]) ∧
    rlC3.requests "a" = [0, 55, 56] := by
  constructor
  · norm_num [check_rate_limit, rlC3, prune, listMin, updateMap, pyInt, min_def,
      List.filter]
  · norm_num [rlC3]

/-- C3 amended: a denied `check_rate_limit` call never appends a timestamp
and never changes any `last_request` entry; other identifiers' lists are
untouched, and the denied identifier's list is either fully unchanged
(cooldown denial) or changed only by pruning the entries with timestamp at
most now - windowSeconds (window denial). -/
theorem c3_denial_state (rl : RateLimiter) (identifier : String)
    (max_requests : ℤ) (w c now : ℚ) (m : String) (rl2 : RateLimiter)
    (h : check_rate_limit rl identifier max_requests w c now = some ((false, m), rl2)) :
    rl2.last_request = rl.last_request ∧
    (∀ j, j ≠ identifier → rl2.requests j = rl.requests j) ∧
    (rl2.requests identifier = rl.requests identifier ∨
      rl2.requests identifier = prune (rl.requests identifier) (now - w)) := by
  rcases check_rate_limit_cases rl identifier max_requests w c now (false, m) rl2 h with
    ⟨h1, _⟩ | ⟨h1, _⟩ | ⟨h1, hb⟩
  · subst h1
    exact ⟨rfl, fun j _ => rfl, Or.inl rfl⟩
  · subst h1
    refine ⟨rfl, fun j hj => ?_, Or.inr ?_⟩
    · simp [updateMap, hj]
    · simp [updateMap]
  · exact absurd hb (by simp)

/-- Witness for C3 (amended): instantiating the amended denial-frame theorem
at the counterexample state: the post-denial state keeps `last_request`,
keeps every other identifier's list, and holds the pruned list for "a". -/
theorem c3_denial_state_witness :
    (⟨updateMap rlC3.requests "a" [55, 56], rlC3.last_request⟩
        : RateLimiter).last_request = rlC3.last_request ∧
    (∀ j, j ≠ "a" →
      (⟨updateMap rlC3.requests "a" [55, 56], rlC3.last_request⟩
        : RateLimiter).requests j = rlC3.requests j) ∧
    ((⟨updateMap rlC3.requests "a" [55, 56], rlC3.last_request⟩
        : RateLimiter).requests "a" = rlC3.requests "a" ∨
     (⟨updateMap rlC3.requests "a" [55, 56], rlC3.last_request⟩
        : RateLimiter).requests "a" = prune (rlC3.requests "a") (60 - 60)) := by
  refine c3_denial_state rlC3 "a" 2 60 2 60
    ("Rate limit exceeded. Please try again in 56 seconds.")
    ⟨updateMap rlC3.requests "a" [55, 56], rlC3.last_request⟩ ?_
  norm_num [check_rate_limit, rlC3, prune, listMin, updateMap, pyInt, min_def,
    List.filter]
  rfl

/-- The allow/deny decision and message of a call depend only on the
caller's own record: two limiters agreeing on identifier A's record produce
the same `(allowed, message)` outcome (including the error outcome). -/
theorem check_decision_congr (rl rlB : RateLimiter) (A : String)
    (max_requests : ℤ) (w c now : ℚ)
    (hreq : rlB.requests A = rl.requests A)
    (hlast : rlB.last_request A = rl.last_request A) :
    Option.map Prod.fst (check_rate_limit rl A max_requests w c now) =
      Option.map Prod.fst (check_rate_limit rlB A max_requests w c now) := by
  simp only [check_rate_limit, hreq, hlast]
  cases hl : rl.last_request A with
  | none =>
    dsimp only
    by_cases hlen : max_requests ≤ ((prune (rl.requests A) (now - w)).length : ℤ)
    · rw [if_pos hlen, if_pos hlen]
      cases listMin (prune (rl.requests A) (now - w)) <;> rfl
    · rw [if_neg hlen, if_neg hlen]
      rfl
  | some last =>
    dsimp only
    by_cases hcd : now - last < c
    · rw [if_pos hcd]
      rfl
    · rw [if_neg hcd]
      dsimp only
      by_cases hlen : max_requests ≤ ((prune (rl.requests A) (now - w)).length : ℤ)
      · rw [if_pos hlen, if_pos hlen]
        cases listMin (prune (rl.requests A) (now - w)) <;> rfl
      · rw [if_neg hlen, if_neg hlen]
        rfl

/-- C7: per-identifier isolation. A call for identifier A leaves the stored
record of any other identifier B unchanged, and the decision and message
returned for A depend only on A's record, the policy parameters and now:
any limiter agreeing with the current one on A's record yields the same
outcome. -/
theorem c7_isolation (rl rlB : RateLimiter) (A B : String)
    (max_requests : ℤ) (w c now : ℚ)
    (hBA : B ≠ A)
    (hreq : rlB.requests A = rl.requests A)
    (hlast : rlB.last_request A = rl.last_request A) :
    (∀ r rl2, check_rate_limit rl A max_requests w c now = some (r, rl2) →
      rl2.requests B = rl.requests B ∧ rl2.last_request B = rl.last_request B) ∧
    Option.map Prod.fst (check_rate_limit rl A max_requests w c now) =
      Option.map Prod.fst (check_rate_limit rlB A max_requests w c now) := by
  constructor
  · intro r rl2 h
    rcases check_rate_limit_cases rl A max_requests w c now r rl2 h with
      ⟨h1, _⟩ | ⟨h1, _⟩ | ⟨h1, _⟩ <;> subst h1
    · exact ⟨rfl, rfl⟩
    · exact ⟨by simp [updateMap, hBA], rfl⟩
    · exact ⟨by simp [updateMap, hBA], by simp [updateMap, hBA]⟩
  · exact check_decision_congr rl rlB A max_requests w c now hreq hlast

/-- Witness for C7: `rlC7` and `rlC7b` agree on identifier "a" but differ on
"b"; an admission for "a" on `rlC7` leaves the record of "b" unchanged, and
both limiters return the same decision for "a". -/
theorem c7_isolation_witness :
    ((⟨updateMap rlC7.requests "a" [50, 100],
        updateMap rlC7.last_request "a" (some 100)⟩ : RateLimiter).requests "b" =
        rlC7.requests "b" ∧
     (⟨updateMap rlC7.requests "a" [50, 100],
        updateMap rlC7.last_request "a" (some 100)⟩ : RateLimiter).last_request "b" =
        rlC7.last_request "b") ∧
    Option.map Prod.fst (check_rate_limit rlC7 "a" 10 60 2 100) =
      Option.map Prod.fst (check_rate_limit rlC7b "a" 10 60 2 100) := by
  have hiso := c7_isolation rlC7 rlC7b "a" "b" 10 60 2 100 (by decide) rfl rfl
  refine ⟨hiso.1 (true, "")
    ⟨updateMap rlC7.requests "a" [50, 100],
     updateMap rlC7.last_request "a" (some 100)⟩ ?_, hiso.2⟩
  norm_num [check_rate_limit, rlC7, prune, listMin, updateMap, List.filter]

/-- C6 counterexample: identifier "a" of `rlC6` holds the timestamp 100,
newer than the horizon now - maxAge = 100 - 50 = 50, yet
`cleanup_old_entries` changes its stored list (from [0, 100] to [100]):
the state of a retained identifier is not left untouched. -/
theorem c6_counterexample :
    (100 : ℚ) ∈ rlC6.requests "a" ∧ ((100 : ℚ) - 50 < 100) ∧
    (cleanup_old_entries rlC6 50 100).requests "a" ≠ rlC6.requests "a" := by
  refine ⟨by norm_num [rlC6], by norm_num, ?_⟩
  norm_num [cleanup_old_entries, rlC6, prune, List.filter]

/-- C6 amended: `cleanup_old_entries` removes all tracking state (timestamp
list and `last_request` entry) of every identifier all of whose stored
timestamps are at most now - maxAgeSeconds; an identifier with at least one
newer timestamp is retained: its list is re-pruned to exactly the
timestamps greater than now - maxAgeSeconds (hence stays non-empty) and its
`last_request` entry is unchanged. -/
theorem c6_cleanup (rl : RateLimiter) (maxAge now : ℚ) (identifier : String) :
    ((∀ ts ∈ rl.requests identifier, ts ≤ now - maxAge) →
      (cleanup_old_entries rl maxAge now).requests identifier = [] ∧
      (cleanup_old_entries rl maxAge now).last_request identifier = none) ∧
    ((∃ ts ∈ rl.requests identifier, now - maxAge < ts) →
      (cleanup_old_entries rl maxAge now).requests identifier =
        prune (rl.requests identifier) (now - maxAge) ∧
      (cleanup_old_entries rl maxAge now).requests identifier ≠ [] ∧
      (cleanup_old_entries rl maxAge now).last_request identifier =
        rl.last_request identifier) := by
  constructor
  · intro h
    have hp : prune (rl.requests identifier) (now - maxAge) = [] :=
      prune_eq_nil_iff.mpr h
    exact ⟨hp, by simp [cleanup_old_entries, hp]⟩
  · rintro ⟨ts, hts, hgt⟩
    have hne : prune (rl.requests identifier) (now - maxAge) ≠ [] := by
      intro h0
      rw [prune_eq_nil_iff] at h0
      exact absurd (h0 ts hts) (not_le.mpr hgt)
    exact ⟨rfl, hne, by simp [cleanup_old_entries, hne]⟩

/-- Witness for C6 (amended): on `rlC6w` (identifier "a" with timestamps 0
and 10, identifier "b" with 0 and 100), cleanup at time 100 with horizon 50
drops all state of "a" and keeps "b" with its list pruned and its
`last_request` unchanged. -/
theorem c6_cleanup_witness :
    ((cleanup_old_entries rlC6w 50 100).requests "a" = [] ∧
     (cleanup_old_entries rlC6w 50 100).last_request "a" = none) ∧
    ((cleanup_old_entries rlC6w 50 100).requests "b" =
        prune (rlC6w.requests "b") (100 - 50) ∧
     (cleanup_old_entries rlC6w 50 100).requests "b" ≠ [] ∧
     (cleanup_old_entries rlC6w 50 100).last_request "b" = rlC6w.last_request "b") :=
  ⟨(c6_cleanup rlC6w 50 100 "a").1
      (by intro ts hts; simp [rlC6w] at hts; rcases hts with rfl | rfl <;> norm_num),
   (c6_cleanup rlC6w 50 100 "b").2
      ⟨100, by norm_num [rlC6w, show ("b" : String) ≠ "a" from by decide], by norm_num⟩⟩

theorem recordInv_prune {tss : List ℚ} {last : Option ℚ} (cutoff : ℚ)
    (h : recordInv tss last) : recordInv (prune tss cutoff) last := by
  obtain ⟨h1, h2⟩ := h
  refine ⟨fun ts hts => h1 ts (mem_prune.mp hts).1, ?_⟩
  intro hne
  have htss : tss ≠ [] := by
    intro h0
    exact hne (by rw [h0]; rfl)
  have hlast := h2 htss
  cases hl : last with
  | none =>
    rw [hl] at hlast
    exact absurd (List.getLast?_eq_none_iff.mp hlast) htss
  | some l =>
    rw [hl] at hlast
    obtain ⟨ys, hys⟩ := List.getLast?_eq_some_iff.mp hlast
    by_cases hcl : cutoff < l
    · rw [hys]
      simp only [prune, List.filter_append]
      have hfl : List.filter (fun ts => decide (cutoff < ts)) [l] = [l] := by
        simp [hcl]
      rw [hfl, List.getLast?_concat]
    · exfalso
      apply hne
      rw [prune_eq_nil_iff]
      intro ts hts
      obtain ⟨l2, hl2, hle⟩ := h1 ts hts
      rw [hl] at hl2
      obtain rfl : l = l2 := Option.some_inj.mp hl2
      exact le_trans hle (not_lt.mp hcl)

/-- C9: the record invariant (every stored timestamp at most the
identifier's lastRequestTimestamp, non-empty lists ending exactly in it) is
preserved by every operation: any `check_rate_limit` outcome and any
`cleanup_old_entries` sweep, assuming now is at least every stored
timestamp. -/
theorem c9_invariant_preserved (rl : RateLimiter) (identifier : String)
    (max_requests : ℤ) (w c maxAge now : ℚ)
    (hInv : rlInv rl)
    (hub : ∀ id, ∀ ts ∈ rl.requests id, ts ≤ now) :
    (∀ r rl2, check_rate_limit rl identifier max_requests w c now = some (r, rl2) →
      rlInv rl2) ∧
    rlInv (cleanup_old_entries rl maxAge now) := by
  constructor
  · intro r rl2 h
    rcases check_rate_limit_cases rl identifier max_requests w c now r rl2 h with
      ⟨h1, _⟩ | ⟨h1, _⟩ | ⟨h1, _⟩ <;> subst h1
    · exact hInv
    · intro j
      dsimp only
      simp only [updateMap]
      by_cases hj : j = identifier
      · rw [if_pos hj, hj]
        exact recordInv_prune (now - w) (hInv identifier)
      · rw [if_neg hj]
        exact hInv j
    · intro j
      dsimp only
      simp only [updateMap]
      by_cases hj : j = identifier
      · rw [if_pos hj, if_pos hj]
        constructor
        · intro ts hts
          refine ⟨now, rfl, ?_⟩
          rcases List.mem_append.mp hts with h' | h'
          · exact hub identifier ts (mem_prune.mp h').1
          · rw [List.mem_singleton.mp h']
        · intro _
          exact List.getLast?_concat _
      · rw [if_neg hj, if_neg hj]
        exact hInv j
  · intro j
    dsimp only [cleanup_old_entries]
    by_cases hp : prune (rl.requests j) (now - maxAge) = []
    · rw [hp, if_pos rfl]
      exact ⟨fun ts hts => absurd hts (List.not_mem_nil ts), fun hne => absurd rfl hne⟩
    · rw [if_neg hp]
      exact recordInv_prune (now - maxAge) (hInv j)

/-- Witness for C9: on `rlC9` (timestamps 1 and 2 for "a", last request 2,
satisfying the invariant) both the admission at time 100 and a cleanup
sweep preserve the invariant. -/
theorem c9_invariant_witness :
    rlInv ⟨updateMap rlC9.requests "a" [1, 2, 100],
           updateMap rlC9.last_request "a" (some 100)⟩ ∧
    rlInv (cleanup_old_entries rlC9 3600 100) := by
  have hInv : rlInv rlC9 := by
    intro id
    by_cases hid : id = "a"
    · subst hid
      constructor
      · intro ts hts
        simp [rlC9] at hts
        exact ⟨2, rfl, by rcases hts with rfl | rfl <;> norm_num⟩
      · intro _
        rfl
    · constructor
      · intro ts hts
        simp [rlC9, hid] at hts
      · intro hne
        exact absurd (by simp [rlC9, hid]) hne
  have hub : ∀ id, ∀ ts ∈ rlC9.requests id, ts ≤ (100 : ℚ) := by
    intro id ts hts
    by_cases hid : id = "a"
    · subst hid
      simp [rlC9] at hts
      rcases hts with rfl | rfl <;> norm_num
    · simp [rlC9, hid] at hts
  have h := c9_invariant_preserved rlC9 "a" 10 1000 2 3600 100 hInv hub
  exact ⟨h.1 (true, "") _
    (by norm_num [check_rate_limit, rlC9, prune, listMin, updateMap, List.filter]),
    h.2⟩

/-- C10: with maxRequests at least 1 the `min` in the window-denial branch
is always applied to a non-empty list, so `check_rate_limit` is total
(never the error outcome); with maxRequests 0 on a fresh identifier the
branch is reached with an empty list and the call is the modelled
`ValueError`. -/
theorem c10_min_totality :
    (∀ (rl : RateLimiter) (identifier : String) (max_requests : ℤ) (w c now : ℚ),
      1 ≤ max_requests →
      check_rate_limit rl identifier max_requests w c now ≠ none) ∧
    check_rate_limit RateLimiter.init "a" 0 60 2 100 = none := by
  constructor
  · intro rl identifier max_requests w c now hmax
    have hwin :
        (if max_requests ≤ ((prune (rl.requests identifier) (now - w)).length : ℤ) then
          match listMin (prune (rl.requests identifier) (now - w)) with
          | some oldest_request =>
            some ((false, "Rate limit exceeded. Please try again in " ++
              toString (pyInt (oldest_request + w - now) + 1) ++ " seconds."),
              (⟨updateMap rl.requests identifier
                  (prune (rl.requests identifier) (now - w)), rl.last_request⟩ : RateLimiter))
          | none => none
        else
          some ((true, ""),
            (⟨updateMap rl.requests identifier
                (prune (rl.requests identifier) (now - w) ++ [now]),
              updateMap rl.last_request identifier (some now)⟩ : RateLimiter))) ≠ none := by
      by_cases hlen : max_requests ≤ ((prune (rl.requests identifier) (now - w)).length : ℤ)
      · rw [if_pos hlen]
        have hne : prune (rl.requests identifier) (now - w) ≠ [] := by
          intro h0
          rw [h0] at hlen
          simp only [List.length_nil, Nat.cast_zero] at hlen
          omega
        obtain ⟨m, hm⟩ := listMin_isSome hne
        rw [hm]
        simp
      · rw [if_neg hlen]
        simp
    simp only [check_rate_limit]
    cases hl : rl.last_request identifier with
    | none =>
      dsimp only
      exact hwin
    | some last =>
      dsimp only
      by_cases hcd : now - last < c
      · rw [if_pos hcd]
        simp
      · rw [if_neg hcd]
        exact hwin
  · rfl

/-- Witness for C10: with maxRequests 1 a call on the fresh limiter does not
hit the error outcome. -/
theorem c10_min_totality_witness :
    check_rate_limit RateLimiter.init "b" 1 60 2 100 ≠ none :=
  c10_min_totality.1 RateLimiter.init "b" 1 60 2 100 (by norm_num)

/-- C8: `validate_message_content` applies its gates in order with the
first failure winning: empty or all-whitespace input is rejected as empty;
otherwise a trimmed length below 2 is rejected as too short; otherwise a
raw length above 2000 is rejected as too long (message naming 2000);
otherwise a case-insensitive denylist substring match is rejected as
unprocessable; otherwise the message is valid with an empty reason. -/
theorem c8_validate_gates (message : String) :
    (pyStrip message.data = [] →
      validate_message_content message = (false, "Message cannot be empty.")) ∧
    (pyStrip message.data ≠ [] → (pyStrip message.data).length < 2 →
      validate_message_content message =
        (false, "Message is too short. Please provide a meaningful message.")) ∧
    (2 ≤ (pyStrip message.data).length →
      MAX_MESSAGE_LENGTH < message.data.length →
      validate_message_content message =
        (false, "Message is too long. Maximum length is 2000 characters.")) ∧
    (2 ≤ (pyStrip message.data).length →
      message.data.length ≤ MAX_MESSAGE_LENGTH →
      (suspicious_patterns.any fun pat => containsSub pat (pyLower message.data)) = true →
      validate_message_content message =
        (false, "Your message contains content that cannot be processed. Please rephrase.")) ∧
    (2 ≤ (pyStrip message.data).length →
      message.data.length ≤ MAX_MESSAGE_LENGTH →
      (suspicious_patterns.any fun pat => containsSub pat (pyLower message.data)) = false →
      validate_message_content message = (true, "")) := by
  refine ⟨?_, ?_, ?_, ?_, ?_⟩
  · intro h
    simp only [validate_message_content]
    rw [if_pos (by simp [h])]
  · intro h1 h2
    have hc : message.data ≠ [] := fun h0 => h1 (by rw [h0]; rfl)
    simp only [validate_message_content]
    rw [if_neg (by simp [hc, h1]), if_pos h2]
  · intro h2 h3
    have hs : pyStrip message.data ≠ [] := by
      intro h0
      rw [h0] at h2
      simp at h2
    have hc : message.data ≠ [] := fun h0 => hs (by rw [h0]; rfl)
    simp only [validate_message_content]
    rw [if_neg (by simp [hc, hs]), if_neg (by omega), if_pos h3]
    rfl
  · intro h2 h3 h4
    have hs : pyStrip message.data ≠ [] := by
      intro h0
      rw [h0] at h2
      simp at h2
    have hc : message.data ≠ [] := fun h0 => hs (by rw [h0]; rfl)
    simp only [validate_message_content]
    rw [if_neg (by simp [hc, hs]), if_neg (by omega), if_neg (by omega), if_pos h4]
  · intro h2 h3 h4
    have hs : pyStrip message.data ≠ [] := by
      intro h0
      rw [h0] at h2
      simp at h2
    have hc : message.data ≠ [] := fun h0 => hs (by rw [h0]; rfl)
    simp only [validate_message_content]
    rw [if_neg (by simp [hc, hs]), if_neg (by omega), if_neg (by omega),
      if_neg (by simp [h4])]

theorem pyStrip_replicate {a : Char} (n : ℕ) (ha : isPySpace a = false) :
    pyStrip (List.replicate n a) = List.replicate n a := by
  have h1 : List.dropWhile isPySpace (List.replicate n a) = List.replicate n a := by
    cases n with
    | zero => rfl
    | succ m =>
      rw [List.replicate_succ, List.dropWhile_cons]
      simp [ha]
  simp [pyStrip, h1, List.reverse_replicate]

theorem pyLower_replicate_a (n : ℕ) :
    pyLower (List.replicate n 'a') = List.replicate n 'a' := by
  simp only [pyLower, List.map_replicate]
  rfl

theorem leadsChars_mem :
    ∀ (pat s : List Char), leadsChars pat s = true → ∀ c ∈ pat, c ∈ s := by
  intro pat
  induction pat with
  | nil =>
    intro s _ c hc
    exact absurd hc (List.not_mem_nil c)
  | cons a as ih =>
    intro s h c hc
    cases s with
    | nil => exact absurd h (by simp [leadsChars])
    | cons b bs =>
      simp only [leadsChars, Bool.and_eq_true] at h
      obtain ⟨hab, hrest⟩ := h
      have hab2 : a = b := of_decide_eq_true hab
      rcases List.mem_cons.mp hc with rfl | hc2
      · exact hab2 ▸ List.mem_cons_self b bs
      · exact List.mem_cons_of_mem b (ih bs hrest c hc2)

theorem containsSub_mem :
    ∀ (pat s : List Char), containsSub pat s = true → ∀ c ∈ pat, c ∈ s := by
  intro pat s
  induction s with
  | nil =>
    intro h c hc
    cases pat with
    | nil => exact absurd hc (List.not_mem_nil c)
    | cons a as => exact absurd h (by simp [containsSub, leadsChars])
  | cons b bs ih =>
    intro h c hc
    simp only [containsSub, Bool.or_eq_true] at h
    rcases h with h | h
    · exact leadsChars_mem pat (b :: bs) h c hc
    · exact List.mem_cons_of_mem b (ih h c hc)

theorem no_pattern_in_replicate_a (n : ℕ) :
    (suspicious_patterns.any fun pat => containsSub pat (List.replicate n 'a')) = false := by
  rw [List.any_eq_false]
  intro pat hpat hcon
  have hex : ∃ c ∈ pat, c ≠ 'a' := by
    simp only [suspicious_patterns, List.mem_cons, List.not_mem_nil, or_false] at hpat
    rcases hpat with rfl | rfl | rfl | rfl | rfl | rfl | rfl | rfl | rfl | rfl | rfl <;>
      decide
  obtain ⟨c, hcmem, hcne⟩ := hex
  exact hcne (List.eq_of_mem_replicate (containsSub_mem pat _ hcon c hcmem))

/-- Witness for C8: the concrete gate outcomes stated by the spec, including
a maximal-length (2000 character) message with no denylisted substring
being valid. -/
theorem c8_validate_witness :
    validate_message_content "" = (false, "Message cannot be empty.") ∧
    validate_message_content "a" =
      (false, "Message is too short. Please provide a meaningful message.") ∧
    validate_message_content (String.mk (List.replicate 2001 'a')) =
      (false, "Message is too long. Maximum length is 2000 characters.") ∧
    validate_message_content "IGNORE Previous Instructions" =
      (false, "Your message contains content that cannot be processed. Please rephrase.") ∧
    validate_message_content "Hello, how are you?" = (true, "") ∧
    validate_message_content (String.mk (List.replicate 2000 'a')) = (true, "") :=
  ⟨(c8_validate_gates "").1 (by decide),
   (c8_validate_gates "a").2.1 (by decide) (by decide),
   (c8_validate_gates (String.mk (List.replicate 2001 'a'))).2.2.1
     (by show 2 ≤ (pyStrip (List.replicate 2001 'a')).length
         rw [pyStrip_replicate 2001 (by decide), List.length_replicate]
         norm_num)
     (by show MAX_MESSAGE_LENGTH < (List.replicate 2001 'a').length
         rw [List.length_replicate]
         norm_num [MAX_MESSAGE_LENGTH]),
   (c8_validate_gates "IGNORE Previous Instructions").2.2.2.1
     (by decide) (by decide) (by decide),
   (c8_validate_gates "Hello, how are you?").2.2.2.2
     (by decide) (by decide) (by decide),
   (c8_validate_gates (String.mk (List.replicate 2000 'a'))).2.2.2.2
     (by show 2 ≤ (pyStrip (List.replicate 2000 'a')).length
         rw [pyStrip_replicate 2000 (by decide), List.length_replicate]
         norm_num)
     (by show (List.replicate 2000 'a').length ≤ MAX_MESSAGE_LENGTH
         rw [List.length_replicate]
         norm_num [MAX_MESSAGE_LENGTH])
     (by show (suspicious_patterns.any fun pat =>
           containsSub pat (pyLower (List.replicate 2000 'a'))) = false
         rw [pyLower_replicate_a]
         exact no_pattern_in_replicate_a 2000)⟩

end DigitalTwin
